import Mathlib

/-!
Verification development for the weather lookup application
(browser search controller in `main.js`, Express backend in `server.js`).

The backend handlers and the client search controller are shallowly
embedded as pure Lean functions.  Network providers (geocoder, fallback
geocoder, reverse geocoder, forecaster) are modelled as oracle functions
returning `Option` results: `none` models a failed call (network error,
timeout, non-2xx response) or an empty result set, exactly the cases the
source collapses (`geocodeOpenMeteo` catches every error and returns
`null`, and returns `null` on an empty `results` array).

Strings use Lean `String`; the JavaScript operations `trim`,
`split(",")`, `toLowerCase` and the NFD-based `stripAccents` are embedded
with tables covering the Latin letters the application deals in.
Numbers that the source manipulates only as opaque payloads stay type
parameters; coordinates are rationals.
-/

namespace Weather

/-! ## Server-side string helpers (`server.js`) -/

/-- Character-level diacritic stripping.  `stripAccents` in `server.js` is
`s.normalize("NFD").replace(/[̀-ͯ]/g, "")`; on the Latin-1
letters this amounts to mapping each accented letter to its base letter,
which is the table below. -/
def stripAccentChar (c : Char) : Char :=
  match c with
  | 'á' | 'à' | 'â' | 'ä' | 'ã' => 'a'
  | 'é' | 'è' | 'ê' | 'ë' => 'e'
  | 'í' | 'ì' | 'î' | 'ï' => 'i'
  | 'ó' | 'ò' | 'ô' | 'ö' | 'õ' => 'o'
  | 'ú' | 'ù' | 'û' | 'ü' => 'u'
  | 'ñ' => 'n'
  | 'ç' => 'c'
  | 'Á' | 'À' | 'Â' | 'Ä' | 'Ã' => 'A'
  | 'É' | 'È' | 'Ê' | 'Ë' => 'E'
  | 'Í' | 'Ì' | 'Î' | 'Ï' => 'I'
  | 'Ó' | 'Ò' | 'Ô' | 'Ö' | 'Õ' => 'O'
  | 'Ú' | 'Ù' | 'Û' | 'Ü' => 'U'
  | 'Ñ' => 'N'
  | 'Ç' => 'C'
  | _ => c

/-- `stripAccents` from `server.js`: remove diacritics, keep everything else. -/
def stripAccents (s : String) : String :=
  ⟨s.data.map stripAccentChar⟩

/-- JavaScript `toLowerCase`, restricted to ASCII plus the accented Latin
letters used here. -/
def jsToLowerChar (c : Char) : Char :=
  if 'A' ≤ c ∧ c ≤ 'Z' then Char.ofNat (c.toNat + 32)
  else
    match c with
    | 'Á' => 'á' | 'À' => 'à' | 'Â' => 'â' | 'Ä' => 'ä' | 'Ã' => 'ã'
    | 'É' => 'é' | 'È' => 'è' | 'Ê' => 'ê' | 'Ë' => 'ë'
    | 'Í' => 'í' | 'Ì' => 'ì' | 'Î' => 'î' | 'Ï' => 'ï'
    | 'Ó' => 'ó' | 'Ò' => 'ò' | 'Ô' => 'ô' | 'Ö' => 'ö' | 'Õ' => 'õ'
    | 'Ú' => 'ú' | 'Ù' => 'ù' | 'Û' => 'û' | 'Ü' => 'ü'
    | 'Ñ' => 'ñ' | 'Ç' => 'ç'
    | _ => c

/-- JavaScript `String.prototype.toLowerCase` on our character range. -/
def jsToLower (s : String) : String :=
  ⟨s.data.map jsToLowerChar⟩

/-- The characters JavaScript `trim` removes (the ones relevant here). -/
def jsWhitespaceChar (c : Char) : Bool :=
  c = ' ' ∨ c = '\t' ∨ c = '\n' ∨ c = '\r' ∨
    c = Char.ofNat 11 ∨ c = Char.ofNat 12

/-- JavaScript `String.prototype.trim`: strip whitespace on both ends. -/
def jsTrim (s : String) : String :=
  ⟨((s.data.dropWhile jsWhitespaceChar).reverse.dropWhile
      jsWhitespaceChar).reverse⟩

/-- The characters of `s.split(",")[0]`: everything before the first
comma (the whole string when there is none). -/
def beforeComma : List Char → List Char
  | [] => []
  | c :: cs => if c = ',' then [] else c :: beforeComma cs

/-- `raw.split(",")[0].trim()` from the `/weather` handler: the trimmed
portion of the text before the first comma (the whole text, trimmed,
when there is no comma). -/
def firstPortion (raw : String) : String :=
  jsTrim ⟨beforeComma raw.data⟩

/-- The candidate list built by the `/weather` handler (`server.js`
lines 158-163): start from `[raw, first]`, then push the
diacritic-stripped first portion when it differs case-insensitively. -/
def candidates (raw : String) : List String :=
  let first := firstPortion raw
  let cands := [raw, first]
  let noAccents := stripAccents first
  if jsToLower noAccents ≠ jsToLower first then cands ++ [noAccents]
  else cands

/-- Candidate list as claim C4 words it (spec-side definition, for
comparison with `candidates`): the raw trimmed text; if the text contains
a comma, also the portion before the first comma; and additionally a
diacritic-stripped version of that first portion when it differs from
it. -/
def claimC4Candidates (raw : String) : List String :=
  ([raw] ++ if raw.data.contains ',' then [firstPortion raw] else []) ++
    (if stripAccents (firstPortion raw) ≠ firstPortion raw then
      [stripAccents (firstPortion raw)]
    else [])

/-- Candidate list as the amended claim C4 words it: the raw trimmed
text, then the trimmed portion before the first comma (this equals the
raw text again when there is no comma), and additionally a
diacritic-stripped version of that first portion when it differs
case-insensitively from it. -/
def amendedC4Candidates (raw : String) : List String :=
  [raw] ++ [firstPortion raw] ++
    (if jsToLower (stripAccents (firstPortion raw)) ≠
        jsToLower (firstPortion raw) then
      [stripAccents (firstPortion raw)]
    else [])

/-! ## Server-side data model and handlers (`server.js`) -/

/-- Result of a geocoder provider: what `geocodeOpenMeteo` and
`geocodeFallbackNominatim` hand back on success. -/
structure Geo where
  latitude : ℚ
  longitude : ℚ
  place : String
deriving DecidableEq

/-- The `for (const q of candidates) { geo = await geocodeOpenMeteo(q); if
(geo) break; }` loop: try each candidate in order, stop at the first
provider success. -/
def tryCandidates (p : String → Option Geo) : List String → Option Geo
  | [] => none
  | q :: rest =>
    match p q with
    | some g => some g
    | none => tryCandidates p rest

/-- Geocoding resolution of the `/weather` handler: the primary provider
over all candidates, then one fallback call with the first portion. -/
def resolveGeo (p f : String → Option Geo) (raw : String) : Option Geo :=
  match tryCandidates p (candidates raw) with
  | some g => some g
  | none => f (firstPortion raw)

/-- HTTP-level outcome of `GET /weather`, with the forecast payload kept
as an opaque type parameter `F`. -/
inductive WeatherResp (F : Type) where
  | badRequest (msg : String)
  | notFound (msg : String)
  | serverError (msg : String)
  | ok (place : String) (forecast : F) (lat lon : ℚ)
deriving DecidableEq

/-- The `GET /weather?city=...` handler (`server.js` lines 150-206).
`p`/`f` are the primary and fallback geocoder oracles, `fc` the
forecaster oracle (`none` = the forecast call threw, which the handler
turns into a 500).  The best-effort `searches` audit insert is swallowed
by its own try/catch and has no effect on the response. -/
def weatherByCity {F : Type} (p f : String → Option Geo)
    (fc : ℚ → ℚ → Option F) (cityParam : String) : WeatherResp F :=
  let raw := jsTrim cityParam
  if raw = "" then .badRequest "Falta ?city"
  else
    match resolveGeo p f raw with
    | none => .notFound "Ciudad no encontrada"
    | some g =>
      match fc g.latitude g.longitude with
      | none => .serverError "Error"
      | some fr => .ok g.place fr g.latitude g.longitude

/-- Geocoding resolution as claim C3 words it (spec-side definition, for
comparison with `resolveGeo`): when every primary attempt fails, the one
fallback call is made with *the first candidate* — the head of the
candidate list, i.e. the raw trimmed text. -/
def claimC3ResolveGeo (p f : String → Option Geo) (raw : String) :
    Option Geo :=
  match tryCandidates p (candidates raw) with
  | some g => some g
  | none => f ((candidates raw).headD raw)

/-- The `GET /weather` handler as claim C3 words it: identical to
`weatherByCity` except that the geocoding stage is
`claimC3ResolveGeo` — the fallback receives the first candidate instead
of the first portion. -/
def claimC3WeatherByCity {F : Type} (p f : String → Option Geo)
    (fc : ℚ → ℚ → Option F) (cityParam : String) : WeatherResp F :=
  let raw := jsTrim cityParam
  if raw = "" then .badRequest "Falta ?city"
  else
    match claimC3ResolveGeo p f raw with
    | none => .notFound "Ciudad no encontrada"
    | some g =>
      match fc g.latitude g.longitude with
      | none => .serverError "Error"
      | some fr => .ok g.place fr g.latitude g.longitude

/-- `placeFromParts` from `server.js`:
`[name, admin1, country].filter(Boolean).join(", ")`.  `none` models a
missing (`null`/`undefined`) part; the empty string is falsy too. -/
def placeFromParts (name admin1 country : Option String) : String :=
  String.intercalate ", "
    (([name, admin1, country].filterMap id).filter (fun s => s ≠ ""))

/-- Two-digit zero padding for the fractional part of `toFixed(2)`. -/
def pad2 (n : Nat) : String :=
  if n < 10 then "0" ++ toString n else toString n

/-- JavaScript `Number.prototype.toFixed(2)`: round to the nearest
hundredth, ties away from zero (ECMA picks the larger `n` on a tie for
the magnitude, and prefixes the sign). -/
def toFixed2 (q : ℚ) : String :=
  let n : ℤ := Int.floor (|q| * 100 + 1 / 2)
  (if q < 0 then "-" else "") ++
    toString (n / 100) ++ "." ++ pad2 (n % 100).toNat

/-- One entry of the reverse geocoder's `results` array. -/
structure RevPlace where
  name : Option String
  admin1 : Option String
  country : Option String
deriving DecidableEq

/-- `reverseOpenMeteo` from `server.js`: on a non-empty `results` array
use its first entry; on an empty array, a missing array, or any thrown
error (all modelled by the oracle value), fall back to the coordinate
string.  The oracle `rev` is `none` when the call failed and
`some results` when it returned an array. -/
def reverseOpenMeteo (rev : Option (List RevPlace)) (lat lon : ℚ) : String :=
  match rev with
  | some (r :: _) => placeFromParts r.name r.admin1 r.country
  | _ => "(" ++ toFixed2 lat ++ ", " ++ toFixed2 lon ++ ")"

/-- HTTP-level outcome of `GET /weather/coords`. -/
inductive CoordsResp (F : Type) where
  | badRequest (msg : String)
  | serverError (msg : String)
  | ok (place : String) (forecast : F) (lat lon : ℚ)
deriving DecidableEq

/-- The `GET /weather/coords?lat&lon` handler (`server.js` lines
209-230).  `latq`/`lonq` are the parsed query parameters; `none` models
`Number(...)` producing a non-finite value. -/
def weatherByCoords {F : Type} (rev : Option (List RevPlace))
    (fc : ℚ → ℚ → Option F) (latq lonq : Option ℚ) : CoordsResp F :=
  match latq, lonq with
  | some lat, some lon =>
    let place := reverseOpenMeteo rev lat lon
    match fc lat lon with
    | none => .serverError "Error"
    | some f => .ok place f lat lon
  | _, _ => .badRequest "Lat/Lon inválidos"

/-! ## Favorites store (`server.js` lines 248-274) -/

/-- A row of the `favorites` table. -/
structure FavRow where
  id : Nat
  city : String
  lat : Option ℚ
  lon : Option ℚ
  createdAt : Nat
deriving DecidableEq

/-- The `favorites` table plus its AUTOINCREMENT counter; rows are kept
in insertion (rowid) order, which is the order unqualified SELECTs
scan. -/
structure FavDb where
  rows : List FavRow
  nextId : Nat
deriving DecidableEq

/-- Response of `POST /favorites/toggle`.  `added` carries the row that
the follow-up `SELECT * FROM favorites WHERE city = ?` found (the source
would serialize `undefined` if it found none, hence the `Option`). -/
inductive ToggleResp where
  | badRequest (msg : String)
  | removed
  | added (row : Option FavRow)
deriving DecidableEq

/-- `SELECT ... FROM favorites WHERE city = ?` via `db.get`: the first
row in scan order whose `city` equals the parameter exactly. -/
def findByCity (rows : List FavRow) (c : String) : Option FavRow :=
  rows.find? (fun r => r.city = c)

/-- The `POST /favorites/toggle` handler (`server.js` lines 248-274).
`city` is `none` when the body field is absent and JS-falsy when empty;
`lat`/`lon` are `none` when absent or non-finite (the handler stores
`NULL` then). -/
def toggleFavorite (db : FavDb) (now : Nat) (city : Option String)
    (lat lon : Option ℚ) : ToggleResp × FavDb :=
  match city with
  | none => (.badRequest "Falta city", db)
  | some c =>
    if c = "" then (.badRequest "Falta city", db)
    else
      match findByCity db.rows c with
      | some row =>
        (.removed, { db with rows := db.rows.filter (fun r => r.id ≠ row.id) })
      | none =>
        let newRow : FavRow :=
          { id := db.nextId, city := c, lat := lat, lon := lon,
            createdAt := now }
        let rows2 := db.rows ++ [newRow]
        (.added (findByCity rows2 c), { rows := rows2, nextId := db.nextId + 1 })

/-! ## Client search controller (`main.js` lines 1-604)

The browser side is embedded as a state machine.  The payload the
controller passes through (`{current, daily, latitude, longitude}`) is
opaque to its logic and stays a type parameter `D`.  The single
suspension point of `searchCity` is the `await apiWeatherByCity(...)`;
everything before it is the synchronous admission step (`searchCity`
below) and everything after it is the synchronous settlement step
(`settle` below), which a nondeterministic scheduler fires when the
network call resolves.  Cancellation (`controller.abort()`) is modelled
by the settlement nondeterministically carrying an `AbortError`
(`NetResult.err true`), matching the best-effort abort of the source. -/

/-- A network call issued by `searchCity` and not yet settled: the cache
key it was issued for, the sequence number `mySeq` it captured, and the
id of the `AbortController` it was tagged with. -/
structure PendingCall where
  key : String
  seq : Nat
  ctrl : Nat
deriving DecidableEq

/-- The status line (`setStatus(msg, type)`). -/
structure Status where
  msg : String
  isError : Bool
deriving DecidableEq

/-- Client state: the module-level `state` object, the `cache` map, the
shared `controller`, and observers for the externally visible channels
(the rendered view, the history list, the status line, the loader).
`renders` and `netCalls` count `render(...)` invocations and issued
network calls.  The cache is an association list from key to
`(place, data)`; `view = none` models hidden result panels. -/
structure ClientState (D : Type) where
  fetchSeq : Nat
  isSearching : Bool
  lastQueryKey : Option String
  lastRenderAt : Nat
  cache : List (String × String × D)
  view : Option (String × D)
  history : List String
  status : Status
  loading : Bool
  pending : List PendingCall
  nextCtrl : Nat
  curCtrl : Option Nat
  renders : Nat
  netCalls : Nat
deriving DecidableEq

/-- `(city || "").trim().toLowerCase()`. -/
def normKey (city : String) : String :=
  jsToLower (jsTrim city)

/-- `cache.get(k)` (after a `cache.has(k)` check). -/
def cacheGet {D : Type} (c : List (String × String × D)) (k : String) :
    Option (String × D) :=
  match c.find? (fun e => e.1 = k) with
  | some e => some e.2
  | none => none

/-- `cache.set(k, v)`: replace any binding of `k`, keep the rest. -/
def cacheSet {D : Type} (c : List (String × String × D)) (k : String)
    (v : String × D) : List (String × String × D) :=
  (k, v) :: c.filter (fun e => e.1 ≠ k)

/-- `addToHistory(city)` from `main.js`: drop case-insensitive
duplicates, prepend, keep at most 4 entries. -/
def addToHistory (h : List String) (place : String) : List String :=
  (place :: h.filter (fun c => jsToLower c ≠ jsToLower place)).take 4

/-- `render(place, data)`: show the panels with this content and record
the render timestamp (`state.lastRenderAt = Date.now()`). -/
def renderView {D : Type} (s : ClientState D) (now : Nat) (place : String)
    (data : D) : ClientState D :=
  { s with view := some (place, data), renders := s.renders + 1,
           lastRenderAt := now }

/-- The synchronous part of `searchCity(city)` (`main.js` lines
397-459): guards, admission, cache fast path, or issuing the network
call.  `now` is `Date.now()`. -/
def searchCity {D : Type} (s : ClientState D) (now : Nat) (city : String) :
    ClientState D :=
  let key := normKey city
  if key = "" then s
  else if s.lastQueryKey = some key ∧ now - s.lastRenderAt < 3000 then s
  else if s.isSearching then s
  else
    let s1 := { s with isSearching := true, lastQueryKey := some key,
                       fetchSeq := s.fetchSeq + 1 }
    let mySeq := s1.fetchSeq
    let ctrlId := s1.nextCtrl
    let s2 := { s1 with curCtrl := some ctrlId, nextCtrl := s1.nextCtrl + 1 }
    match cacheGet s2.cache key with
    | some (place, data) =>
      let s3 :=
        if mySeq = s2.fetchSeq then
          { renderView s2 now place data with
              history := addToHistory s2.history place,
              status := ⟨"", false⟩, loading := false }
        else s2
      { s3 with isSearching := false }
    | none =>
      { s2 with loading := true, status := ⟨"Buscando…", false⟩,
                pending := s2.pending ++ [⟨key, mySeq, ctrlId⟩],
                netCalls := s2.netCalls + 1 }

/-- Outcome the network hands to the awaiting continuation: a response
body, or a thrown error (`isAbort` = the error's name is `AbortError`;
timeouts reject with a plain `Error("timeout")` and genuine failures
with other messages, so both have `isAbort = false`). -/
inductive NetResult (D : Type) where
  | ok (place : String) (data : D)
  | err (isAbort : Bool) (msg : String)

/-- The `finally` block of `searchCity`: clear the loader only if this
call is still current, always clear the reentrancy flag. -/
def settleFinally {D : Type} (s : ClientState D) (mySeq : Nat) :
    ClientState D :=
  { s with loading := if mySeq = s.fetchSeq then false else s.loading,
           isSearching := false }

/-- The continuation of `searchCity` after `await apiWeatherByCity`
settles (`main.js` lines 432-458): stale-drop check, cache writes under
both keys, render, history, status — or the catch path — and the
`finally` block. -/
def settle {D : Type} (s : ClientState D) (c : PendingCall)
    (r : NetResult D) (now : Nat) : ClientState D :=
  let s0 := { s with pending := s.pending.erase c }
  match r with
  | .ok place data =>
    if c.seq ≠ s0.fetchSeq then settleFinally s0 c.seq
    else
      let s1 := { s0 with
        cache := cacheSet (cacheSet s0.cache c.key (place, data))
          (jsToLower place) (place, data) }
      let s2 := renderView s1 now place data
      let s3 := { s2 with history := addToHistory s2.history place,
                          status := ⟨"", false⟩ }
      settleFinally s3 c.seq
  | .err isAbort msg =>
    let s1 :=
      if isAbort then s0
      else { s0 with
        status := ⟨if msg = "" then "Error en la búsqueda" else msg, true⟩ }
    settleFinally s1 c.seq

/-- The initial client state (fresh page load, nothing rendered). -/
def initState (D : Type) : ClientState D :=
  { fetchSeq := 0, isSearching := false, lastQueryKey := none,
    lastRenderAt := 0, cache := [], view := none, history := [],
    status := ⟨"Escribí una ciudad y presioná Buscar.", false⟩,
    loading := false, pending := [], nextCtrl := 0, curCtrl := none,
    renders := 0, netCalls := 0 }

/-- One scheduler step: either some event handler invokes `searchCity`,
or a pending network call settles (with any outcome — the network is
nondeterministic and cancellation is best-effort). -/
inductive ClientStep (D : Type) : ClientState D → ClientState D → Prop
  | call (s : ClientState D) (now : Nat) (city : String) :
      ClientStep D s (searchCity s now city)
  | net (s : ClientState D) (c : PendingCall) (r : NetResult D) (now : Nat) :
      c ∈ s.pending → ClientStep D s (settle s c r now)

/-- States the controller can reach from a fresh page load. -/
def Reachable (D : Type) (s : ClientState D) : Prop :=
  Relation.ReflTransGen (ClientStep D) (initState D) s

/-- A `searchCity(city)` call at time `now` is admitted from state `s`:
it passes the empty-key, debounce and reentrancy guards (spec steps 1-3)
and so increments the request epoch. -/
def Accepts {D : Type} (s : ClientState D) (now : Nat) (city : String) :
    Prop :=
  normKey city ≠ "" ∧
  ¬(s.lastQueryKey = some (normKey city) ∧ now - s.lastRenderAt < 3000) ∧
  s.isSearching = false

/-! ## Helper lemmas -/

theorem find?_filter_ne {D : Type} (c : List (String × String × D))
    (k k' : String) (h : k' ≠ k) :
    (c.filter (fun e => e.1 ≠ k)).find? (fun e => e.1 = k') =
      c.find? (fun e => e.1 = k') := by
  induction c with
  | nil => rfl
  | cons e t ih =>
    by_cases he : e.1 = k
    · have hne : ¬(e.1 = k') := fun hk' => h (hk'.symm.trans he)
      rw [List.filter_cons_of_neg (by simp [he]),
        List.find?_cons_of_neg _ (by simp [hne]), ih]
    · rw [List.filter_cons_of_pos (by simp [he])]
      by_cases he' : e.1 = k'
      · rw [List.find?_cons_of_pos _ (by simp [he']),
          List.find?_cons_of_pos _ (by simp [he'])]
      · rw [List.find?_cons_of_neg _ (by simp [he']),
          List.find?_cons_of_neg _ (by simp [he']), ih]

theorem cacheGet_cacheSet_self {D : Type} (c : List (String × String × D))
    (k : String) (v : String × D) :
    cacheGet (cacheSet c k v) k = some v := by
  unfold cacheGet cacheSet
  rw [List.find?_cons_of_pos _ (by simp)]

theorem cacheGet_cacheSet_ne {D : Type} (c : List (String × String × D))
    (k k' : String) (v : String × D) (h : k' ≠ k) :
    cacheGet (cacheSet c k v) k' = cacheGet c k' := by
  unfold cacheGet cacheSet
  rw [List.find?_cons_of_neg _ (by simpa using Ne.symm h),
    find?_filter_ne c k k' h]

theorem searchCity_drop_busy {D : Type} (s : ClientState D) (now : Nat)
    (city : String) (h : s.isSearching = true) :
    searchCity s now city = s := by
  simp [searchCity, h]

theorem searchCity_miss {D : Type} (s : ClientState D) (now : Nat)
    (city : String) (h : Accepts s now city)
    (hm : cacheGet s.cache (normKey city) = none) :
    searchCity s now city =
      { s with isSearching := true, lastQueryKey := some (normKey city),
               fetchSeq := s.fetchSeq + 1, curCtrl := some s.nextCtrl,
               nextCtrl := s.nextCtrl + 1, loading := true,
               status := ⟨"Buscando…", false⟩,
               pending :=
                 s.pending ++ [⟨normKey city, s.fetchSeq + 1, s.nextCtrl⟩],
               netCalls := s.netCalls + 1 } := by
  obtain ⟨h1, h2, h3⟩ := h
  unfold searchCity
  rw [if_neg h1, if_neg h2, if_neg (by simp [h3])]
  show (match cacheGet s.cache (normKey city) with
    | some (place, data) => _
    | none => _) = _
  rw [hm]

theorem searchCity_hit {D : Type} (s : ClientState D) (now : Nat)
    (city : String) (place : String) (data : D) (h : Accepts s now city)
    (hm : cacheGet s.cache (normKey city) = some (place, data)) :
    searchCity s now city =
      { s with isSearching := false, lastQueryKey := some (normKey city),
               fetchSeq := s.fetchSeq + 1, curCtrl := some s.nextCtrl,
               nextCtrl := s.nextCtrl + 1,
               view := some (place, data), renders := s.renders + 1,
               lastRenderAt := now,
               history := addToHistory s.history place,
               status := ⟨"", false⟩, loading := false } := by
  obtain ⟨h1, h2, h3⟩ := h
  unfold searchCity
  rw [if_neg h1, if_neg h2, if_neg (by simp [h3])]
  show (match cacheGet s.cache (normKey city) with
    | some (place, data) => _
    | none => _) = _
  rw [hm]
  show ({ (if s.fetchSeq + 1 = s.fetchSeq + 1 then _ else _ :
    ClientState D) with isSearching := false }) = _
  rw [if_pos rfl]
  rfl

theorem settle_ok_fresh {D : Type} (s : ClientState D) (c : PendingCall)
    (place : String) (data : D) (now : Nat) (h : c.seq = s.fetchSeq) :
    settle s c (.ok place data) now =
      { s with pending := s.pending.erase c,
               cache := cacheSet (cacheSet s.cache c.key (place, data))
                 (jsToLower place) (place, data),
               view := some (place, data), renders := s.renders + 1,
               lastRenderAt := now,
               history := addToHistory s.history place,
               status := ⟨"", false⟩, loading := false,
               isSearching := false } := by
  simp [settle, settleFinally, renderView, h]

theorem settle_ok_stale {D : Type} (s : ClientState D) (c : PendingCall)
    (place : String) (data : D) (now : Nat) (h : c.seq ≠ s.fetchSeq) :
    settle s c (.ok place data) now =
      { s with pending := s.pending.erase c, isSearching := false } := by
  simp [settle, settleFinally, h]

theorem settle_err {D : Type} (s : ClientState D) (c : PendingCall)
    (isAbort : Bool) (msg : String) (now : Nat) :
    settle s c (.err isAbort msg) now =
      { s with pending := s.pending.erase c, isSearching := false,
               status := if isAbort then s.status
                 else ⟨if msg = "" then "Error en la búsqueda" else msg, true⟩,
               loading := if c.seq = s.fetchSeq then false else s.loading } := by
  cases isAbort <;> simp [settle, settleFinally]

theorem settle_isSearching_false {D : Type} (s : ClientState D)
    (c : PendingCall) (r : NetResult D) (now : Nat) :
    (settle s c r now).isSearching = false := by
  cases r with
  | ok place data =>
    unfold settle settleFinally
    dsimp only
    split <;> rfl
  | err isAbort msg =>
    unfold settle settleFinally
    dsimp only
    try rfl

theorem settle_fetchSeq {D : Type} (s : ClientState D) (c : PendingCall)
    (r : NetResult D) (now : Nat) :
    (settle s c r now).fetchSeq = s.fetchSeq := by
  cases r with
  | ok place data =>
    unfold settle settleFinally
    dsimp only
    split <;> rfl
  | err isAbort msg =>
    unfold settle settleFinally
    dsimp only
    split <;> rfl

theorem settle_pending {D : Type} (s : ClientState D) (c : PendingCall)
    (r : NetResult D) (now : Nat) :
    (settle s c r now).pending = s.pending.erase c := by
  cases r with
  | ok place data =>
    unfold settle settleFinally
    dsimp only
    split <;> rfl
  | err isAbort msg =>
    unfold settle settleFinally
    dsimp only
    split <;> rfl

theorem searchCity_fetchSeq_le {D : Type} (s : ClientState D) (now : Nat)
    (city : String) :
    s.fetchSeq ≤ (searchCity s now city).fetchSeq := by
  unfold searchCity
  dsimp only
  split
  · exact Nat.le_refl _
  split
  · exact Nat.le_refl _
  split
  · exact Nat.le_refl _
  split
  · dsimp only
    split <;> simp [renderView]
  · simp

theorem step_fetchSeq_le {D : Type} {s s' : ClientState D}
    (h : ClientStep D s s') : s.fetchSeq ≤ s'.fetchSeq := by
  cases h with
  | call now city => exact searchCity_fetchSeq_le s now city
  | net c r now hc => exact (settle_fetchSeq s c r now).ge

theorem steps_fetchSeq_le {D : Type} {s s' : ClientState D}
    (h : Relation.ReflTransGen (ClientStep D) s s') :
    s.fetchSeq ≤ s'.fetchSeq := by
  induction h with
  | refl => exact Nat.le_refl _
  | tail _ hstep ih => exact ih.trans (step_fetchSeq_le hstep)

/-- The in-flight invariant: at most one network call is pending, and a
pending call implies the reentrancy flag is up. -/
def GuardInv {D : Type} (s : ClientState D) : Prop :=
  s.pending.length ≤ 1 ∧ (s.pending ≠ [] → s.isSearching = true)

theorem guardInv_init {D : Type} : GuardInv (initState D) := by
  constructor
  · simp [initState]
  · intro h
    simp [initState] at h

theorem guardInv_step {D : Type} {s s' : ClientState D} (hInv : GuardInv s)
    (hstep : ClientStep D s s') : GuardInv s' := by
  cases hstep with
  | call now city =>
    unfold searchCity
    dsimp only [renderView]
    split
    · exact hInv
    split
    · exact hInv
    split
    · exact hInv
    rename_i hbusy
    have hb : s.isSearching = false := by simpa using hbusy
    have hp : s.pending = [] := by
      by_contra hne
      rw [hInv.2 hne] at hb
      exact Bool.noConfusion hb
    split
    · constructor
      · split <;> simp [hp]
      · intro h
        split at h <;> simp [hp] at h
    · constructor
      · simp [hp]
      · intro h
        rfl
  | net c r now hc =>
    have hsing : s.pending = [c] := by
      cases hsp : s.pending with
      | nil =>
        rw [hsp] at hc
        cases hc
      | cons a t =>
        have hlen := hInv.1
        rw [hsp] at hlen hc
        have ht : t = [] := by
          apply List.eq_nil_of_length_eq_zero
          simpa using hlen
        subst ht
        have ha : c = a := by simpa using hc
        rw [ha]
    constructor
    · rw [settle_pending, hsing]
      simp
    · intro h
      rw [settle_pending, hsing] at h
      simp at h

theorem guardInv_reachable {D : Type} {s : ClientState D}
    (h : Reachable D s) : GuardInv s := by
  induction h with
  | refl => exact guardInv_init
  | tail _ hstep ih => exact guardInv_step ih hstep

theorem tryCandidates_none_iff (p : String → Option Geo) (l : List String) :
    tryCandidates p l = none ↔ ∀ q ∈ l, p q = none := by
  induction l with
  | nil => simp [tryCandidates]
  | cons q rest ih =>
    cases hpq : p q with
    | some g => simp [tryCandidates, hpq]
    | none => simp [tryCandidates, hpq, ih]

theorem tryCandidates_take (p : String → Option Geo) (l : List String)
    (i : Nat) (q : String) (g : Geo)
    (htake : ∀ x ∈ l.take i, p x = none)
    (hget : l.get? i = some q) (hq : p q = some g) :
    tryCandidates p l = some g := by
  induction l generalizing i with
  | nil => simp at hget
  | cons a rest ih =>
    cases i with
    | zero =>
      simp at hget
      subst hget
      simp [tryCandidates, hq]
    | succ j =>
      have ha : p a = none := htake a (by simp)
      simp only [tryCandidates, ha]
      exact ih j (fun x hx => htake x (by simp [hx])) (by simpa using hget)

theorem resolveGeo_eq_none_iff (p f : String → Option Geo) (raw : String) :
    resolveGeo p f raw = none ↔
      (∀ q ∈ candidates raw, p q = none) ∧ f (firstPortion raw) = none := by
  unfold resolveGeo
  cases h : tryCandidates p (candidates raw) with
  | some g =>
    constructor
    · intro hg
      cases hg
    · rintro ⟨hall, -⟩
      rw [(tryCandidates_none_iff p (candidates raw)).2 hall] at h
      cases h
  | none =>
    rw [tryCandidates_none_iff] at h
    constructor
    · intro hf
      exact ⟨h, hf⟩
    · rintro ⟨-, hf⟩
      exact hf

theorem find?_append_none {α : Type} (l1 l2 : List α) (p : α → Bool)
    (h : l1.find? p = none) : (l1 ++ l2).find? p = l2.find? p := by
  induction l1 with
  | nil => rfl
  | cons a t ih =>
    cases hpa : p a with
    | true =>
      rw [List.find?_cons_of_pos _ hpa] at h
      cases h
    | false =>
      rw [List.find?_cons_of_neg _ (by simp [hpa])] at h
      rw [List.cons_append, List.find?_cons_of_neg _ (by simp [hpa])]
      exact ih h

theorem searchCity_fetchSeq_accepted {D : Type} (s : ClientState D)
    (now : Nat) (city : String) (h : Accepts s now city) :
    (searchCity s now city).fetchSeq = s.fetchSeq + 1 := by
  obtain ⟨h1, h2, h3⟩ := h
  unfold searchCity
  rw [if_neg h1, if_neg h2, if_neg (by simp [h3])]
  dsimp only [renderView]
  split
  · split <;> rfl
  · rfl

theorem settle_stale_view_renders {D : Type} (s : ClientState D)
    (c : PendingCall) (r : NetResult D) (now : Nat)
    (h : c.seq ≠ s.fetchSeq) :
    (settle s c r now).view = s.view ∧
      (settle s c r now).renders = s.renders := by
  cases r with
  | ok place data => rw [settle_ok_stale s c place data now h]; exact ⟨rfl, rfl⟩
  | err isAbort msg => rw [settle_err]; exact ⟨rfl, rfl⟩

theorem searchCity_drop_debounce {D : Type} (s : ClientState D) (now : Nat)
    (city : String)
    (h : s.lastQueryKey = some (normKey city) ∧ now - s.lastRenderAt < 3000) :
    searchCity s now city = s := by
  simp [searchCity, h.1, h.2]

/-- Composite of an admitted cache-miss lookup and the fresh, successful
settlement of the network call it issued. -/
theorem lookup_roundtrip {D : Type} (s : ClientState D) (t1 t2 : Nat)
    (city place : String) (data : D) (hacc : Accepts s t1 city)
    (hmiss : cacheGet s.cache (normKey city) = none) :
    settle (searchCity s t1 city)
        ⟨normKey city, s.fetchSeq + 1, s.nextCtrl⟩ (.ok place data) t2 =
      { s with fetchSeq := s.fetchSeq + 1,
               lastQueryKey := some (normKey city),
               curCtrl := some s.nextCtrl, nextCtrl := s.nextCtrl + 1,
               pending :=
                 (s.pending ++
                   [(⟨normKey city, s.fetchSeq + 1, s.nextCtrl⟩ :
                     PendingCall)]).erase
                   ⟨normKey city, s.fetchSeq + 1, s.nextCtrl⟩,
               cache := cacheSet
                 (cacheSet s.cache (normKey city) (place, data))
                 (jsToLower place) (place, data),
               view := some (place, data), renders := s.renders + 1,
               lastRenderAt := t2, history := addToHistory s.history place,
               status := ⟨"", false⟩, loading := false, isSearching := false,
               netCalls := s.netCalls + 1 } := by
  rw [searchCity_miss s t1 city hacc hmiss]
  exact settle_ok_fresh
    { s with isSearching := true, lastQueryKey := some (normKey city),
             fetchSeq := s.fetchSeq + 1, curCtrl := some s.nextCtrl,
             nextCtrl := s.nextCtrl + 1, loading := true,
             status := ⟨"Buscando…", false⟩,
             pending :=
               s.pending ++ [⟨normKey city, s.fetchSeq + 1, s.nextCtrl⟩],
             netCalls := s.netCalls + 1 }
    ⟨normKey city, s.fetchSeq + 1, s.nextCtrl⟩ place data t2 rfl

/-! ## Claim theorems -/

/-- Claim C4, counterexample: the claim says the candidate list for a
non-empty trimmed city text is the raw text, plus the portion before the
first comma only when the text contains a comma, plus a stripped variant
when it differs.  For the comma-free, accent-free input "Lima" that
reading gives `["Lima"]`, but the handler builds `["Lima", "Lima"]` — it
always pushes the first portion, so a comma-free text appears twice. -/
theorem c4_candidates_counterexample :
    candidates "Lima" ≠ claimC4Candidates "Lima" := by
  decide

/-- Claim C4, amended: for every city text, the ordered candidate list is
the raw trimmed text, then the trimmed portion before the first comma
(which equals the raw text again when there is no comma), and
additionally a diacritic-stripped version of that first portion when it
differs case-insensitively from it. -/
theorem c4_candidates_amended (raw : String) :
    candidates raw = amendedC4Candidates raw := by
  unfold candidates amendedC4Candidates
  dsimp only
  split <;> simp

/-- Claim C3, counterexample: the claim says that when every primary
attempt fails, the one fallback call is made with the first candidate —
the raw trimmed text.  The handler instead calls the fallback with the
trimmed portion before the first comma (`server.js` line 174).  For
"Madrid, Spain", with a primary that always fails and a fallback that
only resolves "Madrid", the code serves the fallback's place while the
claim's reading would return 404 NotFound. -/
theorem c3_geocode_fallback_counterexample :
    weatherByCity (fun _ => none)
        (fun q => if q = "Madrid" then
          some ⟨1, 2, "Madrid, Comunidad de Madrid, España"⟩ else none)
        (fun _ _ => some (0 : Nat)) "Madrid, Spain" ≠
      claimC3WeatherByCity (fun _ => none)
        (fun q => if q = "Madrid" then
          some ⟨1, 2, "Madrid, Comunidad de Madrid, España"⟩ else none)
        (fun _ _ => some (0 : Nat)) "Madrid, Spain" := by
  decide

/-- Claim C3, amended: `GET /weather` tries the primary geocoder on each
candidate in order stopping at the first success; when every primary
attempt fails it makes exactly one fallback call with the trimmed
portion of the text before the first comma (the second candidate, which
equals the raw text when there is no comma), a fallback success is
returned (never a 404, and the fallback's place is served when the
forecast succeeds), and the response is 404 NotFound exactly when that
fallback call also fails. -/
theorem c3_geocode_fallback {F : Type} (p f : String → Option Geo)
    (fc : ℚ → ℚ → Option F) (cityParam raw : String)
    (hraw : raw = jsTrim cityParam) (hne : raw ≠ "") :
    (∀ i q g, (∀ x ∈ (candidates raw).take i, p x = none) →
      (candidates raw).get? i = some q → p q = some g →
      resolveGeo p f raw = some g) ∧
    (∀ g, (∀ q ∈ candidates raw, p q = none) →
      f (firstPortion raw) = some g →
      resolveGeo p f raw = some g ∧
      (∀ m, weatherByCity p f fc cityParam ≠ .notFound m) ∧
      (∀ fr, fc g.latitude g.longitude = some fr →
        weatherByCity p f fc cityParam =
          .ok g.place fr g.latitude g.longitude)) ∧
    (weatherByCity p f fc cityParam = .notFound "Ciudad no encontrada" ↔
      (∀ q ∈ candidates raw, p q = none) ∧
        f (firstPortion raw) = none) := by
  subst hraw
  refine ⟨?_, ?_, ?_⟩
  · intro i q g htake hget hq
    unfold resolveGeo
    rw [tryCandidates_take p _ i q g htake hget hq]
  · intro g hall hf
    have hres : resolveGeo p f (jsTrim cityParam) = some g := by
      unfold resolveGeo
      rw [(tryCandidates_none_iff p _).2 hall, hf]
    refine ⟨hres, ?_, ?_⟩
    · intro m
      unfold weatherByCity
      rw [if_neg hne, hres]
      cases hfc : fc g.latitude g.longitude <;> simp [hfc]
    · intro fr hfr
      unfold weatherByCity
      rw [if_neg hne, hres]
      simp [hfr]
  · unfold weatherByCity
    rw [if_neg hne]
    rw [← resolveGeo_eq_none_iff p f (jsTrim cityParam)]
    cases hres : resolveGeo p f (jsTrim cityParam) with
    | none => simp
    | some g => cases hfc : fc g.latitude g.longitude <;> simp [hfc]

/-- Witness for C3: with a primary geocoder that always fails, a
fallback that resolves to a fixed place, and a forecaster that always
answers, `GET /weather?city=Lima` serves the fallback's place. -/
theorem c3_geocode_fallback_witness :
    weatherByCity (fun _ => none) (fun _ => some ⟨1, 2, "Lima, Peru"⟩)
        (fun _ _ => some (0 : Nat)) "Lima" =
      .ok "Lima, Peru" 0 1 2 := by
  have h := (c3_geocode_fallback (fun _ => none)
    (fun _ => some ⟨1, 2, "Lima, Peru"⟩) (fun _ _ => some (0 : Nat))
    "Lima" (jsTrim "Lima") rfl (by decide)).2.1
    ⟨1, 2, "Lima, Peru"⟩ (fun q _ => rfl) rfl
  exact h.2.2 0 rfl

/-- Claim C9: `GET /weather/coords` never fails because of reverse
geocoding: when the reverse geocoder fails or returns an empty result
the display name is synthesized from the coordinates formatted to two
decimals, the operation proceeds to the forecast call with that name,
and the response is a 500 exactly when the forecast call fails —
whatever the reverse geocoder did. -/
theorem c9_reverse_never_fails {F : Type} (rev : Option (List RevPlace))
    (fc : ℚ → ℚ → Option F) (lat lon : ℚ)
    (hrev : rev = none ∨ rev = some []) :
    reverseOpenMeteo rev lat lon =
      "(" ++ toFixed2 lat ++ ", " ++ toFixed2 lon ++ ")" ∧
    (∀ fr, fc lat lon = some fr →
      weatherByCoords rev fc (some lat) (some lon) =
        .ok ("(" ++ toFixed2 lat ++ ", " ++ toFixed2 lon ++ ")")
          fr lat lon) ∧
    (∀ rev' : Option (List RevPlace),
      weatherByCoords rev' fc (some lat) (some lon) =
          .serverError "Error" ↔ fc lat lon = none) := by
  have h1 : reverseOpenMeteo rev lat lon =
      "(" ++ toFixed2 lat ++ ", " ++ toFixed2 lon ++ ")" := by
    cases hrev with
    | inl h => rw [h]; rfl
    | inr h => rw [h]; rfl
  refine ⟨h1, ?_, ?_⟩
  · intro fr hfr
    unfold weatherByCoords
    dsimp only
    rw [h1, hfr]
  · intro rev'
    unfold weatherByCoords
    dsimp only
    cases hfc : fc lat lon <;> simp [hfc]

/-- Witness for C9: a failed reverse lookup at (1, 2) with a working
forecaster serves the synthesized coordinate name. -/
theorem c9_reverse_never_fails_witness :
    weatherByCoords none (fun _ _ => some (0 : Nat)) (some 1) (some 2) =
      .ok ("(" ++ toFixed2 1 ++ ", " ++ toFixed2 2 ++ ")") 0 1 2 := by
  exact (c9_reverse_never_fails none (fun _ _ => some (0 : Nat)) 1 2
    (Or.inl rfl)).2.1 0 rfl

/-- Claim C8: while a lookup is being processed every new `searchCity`
call is dropped unchanged (never queued); the settlement path always
clears the reentrancy flag whatever the outcome; and in every reachable
state at most one lookup is past the guard — at most one network call is
pending and a pending call implies the flag is up. -/
theorem c8_reentrancy_guard {D : Type} :
    (∀ (s : ClientState D) (now : Nat) (city : String),
      s.isSearching = true → searchCity s now city = s) ∧
    (∀ (s : ClientState D) (c : PendingCall) (r : NetResult D) (now : Nat),
      (settle s c r now).isSearching = false) ∧
    (∀ s : ClientState D, Reachable D s →
      s.pending.length ≤ 1 ∧ (s.pending ≠ [] → s.isSearching = true)) :=
  ⟨searchCity_drop_busy, settle_isSearching_false,
    fun _ hr => guardInv_reachable hr⟩

/-- Witness for C8: a busy controller drops a call unchanged, an error
settlement clears the flag, and the invariant holds at the initial
state. -/
theorem c8_reentrancy_guard_witness :
    searchCity { initState Nat with isSearching := true } 5 "tokyo" =
      { initState Nat with isSearching := true } ∧
    (settle (initState Nat) ⟨"tokyo", 1, 0⟩
      (.err false "Error 500") 9).isSearching = false ∧
    ((initState Nat).pending.length ≤ 1 ∧
      ((initState Nat).pending ≠ [] → (initState Nat).isSearching = true)) :=
  ⟨c8_reentrancy_guard.1 _ 5 "tokyo" rfl,
    c8_reentrancy_guard.2.1 _ _ _ _,
    c8_reentrancy_guard.2.2 _ Relation.ReflTransGen.refl⟩

/-- Claim C1: if a lookup A is pending (its captured sequence number is
at most the current `fetchSeq`) and a different-key lookup B is admitted,
then after any further steps A's eventual settlement — success or
failure — is never applied to the View: nothing is rendered by it. -/
theorem c1_stale_never_applied {D : Type} (s1 s3 : ClientState D)
    (c : PendingCall) (tB tA : Nat) (cityB : String) (r : NetResult D)
    (hmem : c ∈ s1.pending) (hseq : c.seq ≤ s1.fetchSeq)
    (hdiff : normKey cityB ≠ c.key) (hacc : Accepts s1 tB cityB)
    (hsteps :
      Relation.ReflTransGen (ClientStep D) (searchCity s1 tB cityB) s3) :
    (settle s3 c r tA).view = s3.view ∧
      (settle s3 c r tA).renders = s3.renders := by
  have h1 := searchCity_fetchSeq_accepted s1 tB cityB hacc
  have h2 := steps_fetchSeq_le hsteps
  rw [h1] at h2
  exact settle_stale_view_renders s3 c r tA (by omega)

/-- Witness for C1: with a pending "paris" call and an admitted "tokyo"
lookup right after it, settling the "paris" call renders nothing. -/
theorem c1_stale_never_applied_witness :
    (settle
        (searchCity
          { initState Nat with
              fetchSeq := 1, pending := [⟨"paris", 1, 0⟩] } 0 "tokyo")
        ⟨"paris", 1, 0⟩ (.ok "Paris" 7) 9).view =
      (searchCity
          { initState Nat with
              fetchSeq := 1, pending := [⟨"paris", 1, 0⟩] } 0 "tokyo").view ∧
    (settle
        (searchCity
          { initState Nat with
              fetchSeq := 1, pending := [⟨"paris", 1, 0⟩] } 0 "tokyo")
        ⟨"paris", 1, 0⟩ (.ok "Paris" 7) 9).renders =
      (searchCity
          { initState Nat with
              fetchSeq := 1, pending := [⟨"paris", 1, 0⟩] } 0 "tokyo").renders :=
  c1_stale_never_applied _ _ ⟨"paris", 1, 0⟩ 0 9 "tokyo" (.ok "Paris" 7)
    (by decide) (by decide) (by decide)
    ⟨by decide, by decide, rfl⟩ Relation.ReflTransGen.refl

/-- Claim C10: a successful network response whose captured sequence
number no longer equals the current `fetchSeq` has no observable effect
beyond clearing the in-progress flag (and retiring the call): no cache
write under either key, no history entry, no render, status, loader and
everything else left unchanged. -/
theorem c10_stale_response_frame {D : Type} (s : ClientState D)
    (c : PendingCall) (place : String) (data : D) (now : Nat)
    (h : c.seq ≠ s.fetchSeq) :
    settle s c (.ok place data) now =
      { s with pending := s.pending.erase c, isSearching := false } :=
  settle_ok_stale s c place data now h

/-- Witness for C10: a response captured at sequence 1 arriving when
`fetchSeq` is 2 only retires the call and clears the flag. -/
theorem c10_stale_response_frame_witness :
    settle
        { initState Nat with
            fetchSeq := 2, pending := [⟨"paris", 1, 0⟩] }
        ⟨"paris", 1, 0⟩ (.ok "Paris" 7) 9 =
      { initState Nat with
          fetchSeq := 2,
          pending :=
            ([⟨"paris", 1, 0⟩] : List PendingCall).erase ⟨"paris", 1, 0⟩,
          isSearching := false } :=
  c10_stale_response_frame _ ⟨"paris", 1, 0⟩ "Paris" 7 9 (by decide)

/-- Claim C5: an admitted cache-miss lookup for `k` that succeeds,
followed outside the duplicate-suppression window by another lookup for
the same `k` with nothing in between, renders identical output twice,
issues exactly one network call, and serves the second call
synchronously from the cache (no new pending call, flag already
cleared). -/
theorem c5_cache_idempotence {D : Type} (s s1 s2 s3 : ClientState D)
    (t1 t2 t3 : Nat) (k k2 place : String) (data : D)
    (hacc : Accepts s t1 k)
    (hmiss : cacheGet s.cache (normKey k) = none)
    (hs1 : s1 = searchCity s t1 k)
    (hs2 : s2 = settle s1 ⟨normKey k, s.fetchSeq + 1, s.nextCtrl⟩
      (.ok place data) t2)
    (hk2 : normKey k2 = normKey k)
    (hwin : t2 + 3000 ≤ t3)
    (hs3 : s3 = searchCity s2 t3 k2) :
    s2.view = some (place, data) ∧ s3.view = s2.view ∧
    s3.renders = s.renders + 2 ∧ s3.netCalls = s.netCalls + 1 ∧
    s3.pending = s2.pending ∧ s3.isSearching = false := by
  rw [hs1] at hs2
  rw [lookup_roundtrip s t1 t2 k place data hacc hmiss] at hs2
  have hview2 : s2.view = some (place, data) := by rw [hs2]
  have hacc2 : Accepts s2 t3 k2 := by
    refine ⟨?_, ?_, ?_⟩
    · rw [hk2]
      exact hacc.1
    · rw [hs2, hk2]
      rintro ⟨-, hlt⟩
      have hlt2 : t3 - t2 < 3000 := hlt
      omega
    · rw [hs2]
  have hhit2 : cacheGet s2.cache (normKey k2) = some (place, data) := by
    rw [hs2, hk2]
    show cacheGet (cacheSet (cacheSet s.cache (normKey k) (place, data))
      (jsToLower place) (place, data)) (normKey k) = some (place, data)
    by_cases hpl : normKey k = jsToLower place
    · rw [hpl, cacheGet_cacheSet_self]
    · rw [cacheGet_cacheSet_ne _ _ _ _ hpl, cacheGet_cacheSet_self]
  rw [searchCity_hit s2 t3 k2 place data hacc2 hhit2] at hs3
  refine ⟨hview2, ?_, ?_, ?_, ?_, ?_⟩
  · rw [hs3, hview2]
  · rw [hs3, hs2]
  · rw [hs3, hs2]
  · rw [hs3]
  · rw [hs3]

/-- Witness for C5: looking "paris" up from a fresh controller, letting
the call succeed, then looking "paris" up again 5000ms later renders the
same view from cache with a single network call. -/
theorem c5_cache_idempotence_witness :
    (settle (searchCity (initState Nat) 0 "paris") ⟨"paris", 1, 0⟩
        (.ok "Paris" 7) 10).view = some ("Paris", 7) ∧
    (searchCity
        (settle (searchCity (initState Nat) 0 "paris") ⟨"paris", 1, 0⟩
          (.ok "Paris" 7) 10) 5000 "paris").view =
      (settle (searchCity (initState Nat) 0 "paris") ⟨"paris", 1, 0⟩
        (.ok "Paris" 7) 10).view ∧
    (searchCity
        (settle (searchCity (initState Nat) 0 "paris") ⟨"paris", 1, 0⟩
          (.ok "Paris" 7) 10) 5000 "paris").renders = 2 ∧
    (searchCity
        (settle (searchCity (initState Nat) 0 "paris") ⟨"paris", 1, 0⟩
          (.ok "Paris" 7) 10) 5000 "paris").netCalls = 1 := by
  have h := c5_cache_idempotence (initState Nat) _ _ _ 0 10 5000
    "paris" "paris" "Paris" 7 ⟨by decide, by decide, rfl⟩ (by decide)
    rfl rfl (by decide) (by decide) rfl
  exact ⟨h.1, h.2.1, h.2.2.1, h.2.2.2.1⟩

/-- Claim C7: an admitted lookup for `k` that succeeds, followed inside
the duplicate-suppression window by another call for the same `k`, is
dropped whole by the debounce guard: the state is unchanged, so only one
render and one network call ever happened. -/
theorem c7_debounce_suppression {D : Type} (s s1 s2 s3 : ClientState D)
    (t1 t2 t3 : Nat) (k k2 place : String) (data : D)
    (hacc : Accepts s t1 k)
    (hmiss : cacheGet s.cache (normKey k) = none)
    (hs1 : s1 = searchCity s t1 k)
    (hs2 : s2 = settle s1 ⟨normKey k, s.fetchSeq + 1, s.nextCtrl⟩
      (.ok place data) t2)
    (hk2 : normKey k2 = normKey k)
    (hwin : t3 - t2 < 3000)
    (hs3 : s3 = searchCity s2 t3 k2) :
    s3 = s2 ∧ s2.renders = s.renders + 1 ∧
    s2.netCalls = s.netCalls + 1 ∧ s2.view = some (place, data) := by
  rw [hs1] at hs2
  rw [lookup_roundtrip s t1 t2 k place data hacc hmiss] at hs2
  have hdrop : s3 = s2 := by
    rw [hs3]
    apply searchCity_drop_debounce
    rw [hs2, hk2]
    exact ⟨rfl, hwin⟩
  refine ⟨hdrop, ?_, ?_, ?_⟩ <;> rw [hs2]

/-- Witness for C7: looking "paris" up, succeeding at t=10, then calling
again at t=20 leaves the state untouched: one render, one network
call. -/
theorem c7_debounce_suppression_witness :
    searchCity
        (settle (searchCity (initState Nat) 0 "paris") ⟨"paris", 1, 0⟩
          (.ok "Paris" 7) 10) 20 " PARIS" =
      settle (searchCity (initState Nat) 0 "paris") ⟨"paris", 1, 0⟩
        (.ok "Paris" 7) 10 ∧
    (settle (searchCity (initState Nat) 0 "paris") ⟨"paris", 1, 0⟩
        (.ok "Paris" 7) 10).renders = 1 ∧
    (settle (searchCity (initState Nat) 0 "paris") ⟨"paris", 1, 0⟩
        (.ok "Paris" 7) 10).netCalls = 1 := by
  have h := c7_debounce_suppression (initState Nat) _ _ _ 0 10 20
    "paris" " PARIS" "Paris" 7 ⟨by decide, by decide, rfl⟩ (by decide)
    rfl rfl (by decide) (by decide) rfl
  exact ⟨h.1, h.2.1, h.2.2.1⟩

/-- Claim C2: after a successful render for place P, a later admitted
lookup for a different, uncached place Q that fails with a genuine error
(not an abort) leaves P's rendered view exactly in place — the panels
are not hidden or blanked — and the status channel reports an error. -/
theorem c2_error_keeps_view {D : Type} (s s1 s2 s3 s4 : ClientState D)
    (t1 t2 t3 t4 : Nat) (cityP cityQ placeP msg : String) (dataP : D)
    (haccP : Accepts s t1 cityP)
    (hmissP : cacheGet s.cache (normKey cityP) = none)
    (hkQ : normKey cityQ ≠ "")
    (hQP : normKey cityQ ≠ normKey cityP)
    (hQplace : normKey cityQ ≠ jsToLower placeP)
    (hmissQ : cacheGet s.cache (normKey cityQ) = none)
    (hs1 : s1 = searchCity s t1 cityP)
    (hs2 : s2 = settle s1 ⟨normKey cityP, s.fetchSeq + 1, s.nextCtrl⟩
      (.ok placeP dataP) t2)
    (hs3 : s3 = searchCity s2 t3 cityQ)
    (hs4 : s4 = settle s3
      ⟨normKey cityQ, s.fetchSeq + 2, s.nextCtrl + 1⟩ (.err false msg) t4) :
    s2.view = some (placeP, dataP) ∧
    s4.view = some (placeP, dataP) ∧
    s4.status.isError = true := by
  rw [hs1] at hs2
  rw [lookup_roundtrip s t1 t2 cityP placeP dataP haccP hmissP] at hs2
  have hview2 : s2.view = some (placeP, dataP) := by rw [hs2]
  have hacc3 : Accepts s2 t3 cityQ := by
    refine ⟨hkQ, ?_, ?_⟩
    · rw [hs2]
      rintro ⟨heq, -⟩
      have heq2 : some (normKey cityP) = some (normKey cityQ) := heq
      exact hQP (Option.some.inj heq2).symm
    · rw [hs2]
  have hmiss3 : cacheGet s2.cache (normKey cityQ) = none := by
    rw [hs2]
    show cacheGet (cacheSet (cacheSet s.cache (normKey cityP)
      (placeP, dataP)) (jsToLower placeP) (placeP, dataP))
      (normKey cityQ) = none
    rw [cacheGet_cacheSet_ne _ _ _ _ hQplace,
      cacheGet_cacheSet_ne _ _ _ _ hQP, hmissQ]
  rw [searchCity_miss s2 t3 cityQ hacc3 hmiss3] at hs3
  rw [hs3] at hs4
  rw [settle_err] at hs4
  refine ⟨hview2, ?_, ?_⟩
  · rw [hs4, hs2]
  · rw [hs4]
    simp

/-- Witness for C2: render "Paris", then fail a "tokyo" lookup with a
network error; the view still shows Paris and the status is an error. -/
theorem c2_error_keeps_view_witness :
    (settle
        (searchCity
          (settle (searchCity (initState Nat) 0 "paris") ⟨"paris", 1, 0⟩
            (.ok "Paris" 7) 10) 9000 "tokyo")
        ⟨"tokyo", 2, 1⟩ (.err false "Error 500") 9100).view =
      some ("Paris", 7) ∧
    (settle
        (searchCity
          (settle (searchCity (initState Nat) 0 "paris") ⟨"paris", 1, 0⟩
            (.ok "Paris" 7) 10) 9000 "tokyo")
        ⟨"tokyo", 2, 1⟩ (.err false "Error 500") 9100).status.isError =
      true := by
  have h := c2_error_keeps_view (initState Nat) _ _ _ _ 0 10 9000 9100
    "paris" "tokyo" "Paris" "Error 500" 7 ⟨by decide, by decide, rfl⟩
    (by decide) (by decide) (by decide) (by decide) (by decide)
    rfl rfl rfl rfl
  exact ⟨h.2.1, h.2.2⟩

/-- Claim C6: toggling a city that is not in the favorites store and
then toggling it again returns the store's rows to their prior state
with no entry for that city, and the two calls report added (carrying
the stored row) and then removed, in that order. -/
theorem c6_toggle_involution (db : FavDb) (now1 now2 : Nat) (c : String)
    (lat lon : Option ℚ)
    (hwf : ∀ r ∈ db.rows, r.id < db.nextId)
    (hc : c ≠ "")
    (habs : findByCity db.rows c = none) :
    (toggleFavorite db now1 (some c) lat lon).1 =
      .added (some ⟨db.nextId, c, lat, lon, now1⟩) ∧
    (toggleFavorite (toggleFavorite db now1 (some c) lat lon).2 now2
      (some c) lat lon).1 = .removed ∧
    (toggleFavorite (toggleFavorite db now1 (some c) lat lon).2 now2
      (some c) lat lon).2.rows = db.rows ∧
    findByCity (toggleFavorite (toggleFavorite db now1 (some c) lat
      lon).2 now2 (some c) lat lon).2.rows c = none := by
  have hfind1 : findByCity
      (db.rows ++ [(⟨db.nextId, c, lat, lon, now1⟩ : FavRow)]) c =
      some ⟨db.nextId, c, lat, lon, now1⟩ := by
    unfold findByCity at habs ⊢
    rw [find?_append_none _ _ _ habs]
    exact List.find?_cons_of_pos _ (by simp)
  have e1 : toggleFavorite db now1 (some c) lat lon =
      (.added (some ⟨db.nextId, c, lat, lon, now1⟩),
        { rows := db.rows ++ [(⟨db.nextId, c, lat, lon, now1⟩ : FavRow)],
          nextId := db.nextId + 1 }) := by
    unfold toggleFavorite
    dsimp only
    rw [if_neg hc, habs]
    dsimp only
    rw [hfind1]
  have hrestore :
      (db.rows ++ [(⟨db.nextId, c, lat, lon, now1⟩ : FavRow)]).filter
        (fun r => r.id ≠ db.nextId) = db.rows := by
    rw [List.filter_append]
    have h1 : db.rows.filter (fun r => r.id ≠ db.nextId) = db.rows := by
      apply List.filter_eq_self.2
      intro r hr
      simpa using Nat.ne_of_lt (hwf r hr)
    have h2 : ([(⟨db.nextId, c, lat, lon, now1⟩ : FavRow)]).filter
        (fun r => r.id ≠ db.nextId) = [] := by simp
    rw [h1, h2, List.append_nil]
  have e2 : toggleFavorite
      { rows := db.rows ++ [(⟨db.nextId, c, lat, lon, now1⟩ : FavRow)],
        nextId := db.nextId + 1 } now2 (some c) lat lon =
      (.removed, { rows := db.rows, nextId := db.nextId + 1 }) := by
    unfold toggleFavorite
    dsimp only
    rw [if_neg hc]
    rw [hfind1]
    dsimp only
    rw [hrestore]
  rw [e1]
  dsimp only
  rw [e2]
  exact ⟨rfl, rfl, rfl, habs⟩

/-- Witness for C6: toggling "Rosario" twice on an empty store adds the
row and then removes it, leaving the store empty. -/
theorem c6_toggle_involution_witness :
    (toggleFavorite ⟨[], 0⟩ 3 (some "Rosario") none none).1 =
      .added (some ⟨0, "Rosario", none, none, 3⟩) ∧
    (toggleFavorite (toggleFavorite ⟨[], 0⟩ 3 (some "Rosario") none
      none).2 8 (some "Rosario") none none).1 = .removed ∧
    (toggleFavorite (toggleFavorite ⟨[], 0⟩ 3 (some "Rosario") none
      none).2 8 (some "Rosario") none none).2.rows = [] := by
  have h := c6_toggle_involution ⟨[], 0⟩ 3 8 "Rosario" none none
    (by intro r hr; cases hr) (by decide) rfl
  exact ⟨h.1, h.2.1, h.2.2.1⟩

end Weather
